import Mathlib

/-
  Verification of the streak engine of the Streaker habit-tracking
  repository.

  The repository ships several divergent implementations of its "Streak
  Consistency Engine".  This file gives a shallow embedding of the parts
  that the specification's claims are about:

  * the task record data model (frontend/types.ts, backend Task schema);
  * the evaluator variants:
      - `calculateStreakV1Stops` models the unbounded `while (true)` walk of
        the first Dashboard variant (Dashboard.tsx, "REFINED STREAK ENGINE"),
      - `calculateStreakFromHistory` models "STREAK ENGINE 5.0"
        (Dashboard.tsx, the safety-bounded variant),
      - `analyzeStreakAndFailures` models the V9 analyzer (the variant that
        returns `{ streak, failureDate }`),
      - `analyzeNuclear` models the V10 "NUCLEAR STREAK ENGINE"
        (`analyzeStreakAndFailures` returning `{ streak, failureDate, newLog }`);
  * the purge primitive and the `loadData` pipeline of the V9 variant;
  * the aggregate sync functions `syncStreakToCloud` / `syncStateToCloud`;
  * the ritual materializer of the V5/V9/V10 `loadData` functions;
  * the log-based V13 operations `toggleTask` / `deleteTask` /
    `performSequenceValidation`.

  Date keys: the code handles calendar days as `YYYY-MM-DD` strings, using
  only equality, lexicographic comparison, and the "previous day" operation
  (`checkDate.setDate(checkDate.getDate() - 1)`).  Valid `YYYY-MM-DD` strings
  are in an order-preserving bijection with day numbers under which "previous
  day" is subtraction of one, so the embedding models a date key as `Int`.
-/

namespace Streaker

/-- A task record, after `Task` in frontend/types.ts and the backend
`taskSchema` (one row per (user, date, objective) instance). -/
structure Task where
  id : String
  userId : String
  title : String
  completed : Bool
  date : Int
  isRecurring : Bool
  reminderTime : Option String := none
  deriving Repr, DecidableEq

/-- A task definition of the log-based V13 engine, after `TaskDefinition`
in frontend/types.ts. -/
structure TaskDefinition where
  id : String
  title : String
  reminderTime : Option String := none
  createdAt : Option String := none
  deriving Repr, DecidableEq

/-- The persisted user aggregate, after `User` in frontend/types.ts and the
backend `userSchema`. -/
structure User where
  id : String
  username : String
  password : Option String := none
  role : Option String := none
  email : String
  streakCount : Nat
  lastCompletedDate : Option Int := none
  lastActiveDate : Option Int := none
  persistenceLog : List Int := []
  taskDefinitions : List TaskDefinition := []
  completedToday : List String := []
  joinDate : Int
  deriving Repr, DecidableEq

/-- The records of one calendar day: `tasksByDate[dStr]`, with `[]` for a
missing key.  Every evaluator variant builds `tasksByDate` by pushing the
records of `history` in order, so the bucket of a date equals the filter of
the history by that date. -/
def tasksOn (history : List Task) (d : Int) : List Task :=
  history.filter (fun t => t.date == d)

/-- `isDayPerfect` as written in the V5/V9/V10 engines: a day with zero
records is not perfect; otherwise every record must be completed. -/
def isDayPerfect (history : List Task) (d : Int) : Bool :=
  let dayTasks := tasksOn history d
  if dayTasks.isEmpty then false else dayTasks.all (fun t => t.completed)

/-- Result record of the V9 analyzer (`{ streak, failureDate }`). -/
structure AnalyzeResult where
  streak : Nat
  failureDate : Option Int
  deriving Repr, DecidableEq

/-- The `while (safety < 3650)` loop of the V9 analyzer and of
"STREAK ENGINE 5.0".  The fuel argument is the remaining safety budget.
One loop iteration either extends the streak and moves the cursor one day
back, or leaves the loop: at a non-perfect day the source runs
`if (dStr < joinDateStr) break;` and then, when the day is at or after the
join date, records it as the failure date and breaks. -/
def analyzeLoop (history : List Task) (joinDate : Int) (streak : Nat)
    (checkDate : Int) : Nat → Nat × Option Int
  | 0 => (streak, none)
  | fuel + 1 =>
    if isDayPerfect history checkDate then
      analyzeLoop history joinDate (streak + 1) (checkDate - 1) fuel
    else if checkDate < joinDate then
      (streak, none)
    else
      (streak, some checkDate)

/-- The V9 `analyzeStreakAndFailures`: empty history short-circuits; a
perfect today starts the walk at yesterday with streak 1; a perfect
yesterday starts it at yesterday with streak 0; otherwise the result is
streak 0 with yesterday reported as the failure date. -/
def analyzeStreakAndFailures (history : List Task) (today joinDate : Int) :
    AnalyzeResult :=
  if history.isEmpty then ⟨0, none⟩
  else
    let todayIsPerfect := isDayPerfect history today
    let yesterdayIsPerfect := isDayPerfect history (today - 1)
    if todayIsPerfect then
      let r := analyzeLoop history joinDate 1 (today - 1) 3650
      ⟨r.1, r.2⟩
    else if yesterdayIsPerfect then
      let r := analyzeLoop history joinDate 0 (today - 1) 3650
      ⟨r.1, r.2⟩
    else
      ⟨0, some (today - 1)⟩

/-- The `while (safety < 3650)` loop of "STREAK ENGINE 5.0", instrumented
with the number of loop-body iterations actually executed (second
component).  At a non-perfect day the source runs
`if (dStr < joinDateStr) break else break` - both arms leave the loop with
the current streak, which the embedding keeps verbatim. -/
def v5Walk (history : List Task) (joinDate : Int) (streak : Nat)
    (checkDate : Int) : Nat → Nat × Nat
  | 0 => (streak, 0)
  | fuel + 1 =>
    if isDayPerfect history checkDate then
      let r := v5Walk history joinDate (streak + 1) (checkDate - 1) fuel
      (r.1, r.2 + 1)
    else
      if checkDate < joinDate then (streak, 1) else (streak, 1)

/-- "STREAK ENGINE 5.0" `calculateStreakFromHistory`: streak of consecutive
perfect days ending today or yesterday, walk bounded by the 3650 safety
counter. -/
def calculateStreakFromHistory (history : List Task) (today joinDate : Int) :
    Nat :=
  if history.isEmpty then 0
  else
    let start := if isDayPerfect history today then 1 else 0
    (v5Walk history joinDate start (today - 1) 3650).1

/-- The progress predicate of the first Dashboard variant's `while (true)`
walk ("REFINED STREAK ENGINE"): does the loop leave within the given number
of iterations when started at `checkDate`?  The loop body continues exactly
when the day has records and all are completed (`isDayPerfect`), and breaks
otherwise; there is no safety counter in that variant. -/
def calculateStreakV1Stops (history : List Task) (checkDate : Int) :
    Nat → Bool
  | 0 => false
  | k + 1 =>
    if isDayPerfect history checkDate then
      calculateStreakV1Stops history (checkDate - 1) k
    else
      true

/-- Result record of the V10 nuclear analyzer
(`{ streak, failureDate, newLog }`). -/
structure NuclearResult where
  streak : Nat
  failureDate : Option Int
  newLog : List Int
  deriving Repr, DecidableEq

/-- The `while (getLocalDateStr(checkDate) >= joinDateStr)` walk of the V10
"NUCLEAR STREAK ENGINE".  Today is handled specially (perfect today sets
streak to 1 and logs the day); an idle day is skipped; a perfect day is
counted and logged (`newLog.unshift`); the first day that has records but
is not perfect triggers the nuclear reset: the walk returns streak 0, that
day as failure date, and an empty log.  Fuel counts the remaining days down
to the join date. -/
def nuclearWalk (history : List Task) (today joinDate : Int)
    (checkDate : Int) (streak : Nat) (log : List Int) : Nat → NuclearResult
  | 0 => ⟨streak, none, log⟩
  | fuel + 1 =>
    if checkDate < joinDate then ⟨streak, none, log⟩
    else if checkDate == today then
      if isDayPerfect history checkDate then
        nuclearWalk history today joinDate (checkDate - 1) 1
          (checkDate :: log) fuel
      else
        nuclearWalk history today joinDate (checkDate - 1) streak log fuel
    else if (tasksOn history checkDate).isEmpty then
      nuclearWalk history today joinDate (checkDate - 1) streak log fuel
    else if isDayPerfect history checkDate then
      nuclearWalk history today joinDate (checkDate - 1) (streak + 1)
        (checkDate :: log) fuel
    else
      ⟨0, some checkDate, []⟩

/-- The V10 `analyzeStreakAndFailures` ("NUCLEAR STREAK ENGINE").  The fuel
`(today + 1 - joinDate).toNat` is exactly the number of days visited by the
walk from today down to the join date, so fuel exhaustion and the loop
guard `checkDate >= joinDate` failing coincide and return the same value. -/
def analyzeNuclear (history : List Task) (today joinDate : Int) :
    NuclearResult :=
  if history.isEmpty then ⟨0, none, []⟩
  else nuclearWalk history today joinDate today 0 [] (today + 1 - joinDate).toNat

/-- Modelled from the spec: the purge primitive
`deleteTaskRecordsAfter(userId, date)` deletes all of the user's records
with `date > afterDate`.  The frontend caller `dbService.purgeTasksAfterDate`
issues `DELETE /api/tasks/purge?userId=..&afterDate=..` with exactly this
contract, but no server variant in the repository defines a `/api/tasks/purge`
route (the request instead matches the delete-by-id route with
`id = "purge"`), so the store-side deletion is modelled from the spec. -/
def purgeTasksAfterDate (store : List Task) (userId : String)
    (afterDate : Int) : List Task :=
  store.filter (fun t => !(t.userId == userId && afterDate < t.date))

/-- What the deployed backends actually do with the purge request:
`DELETE /api/tasks/purge` matches `app.delete('/api/tasks/:id')` with
`id = "purge"`, so `Task.deleteOne` removes only a record whose id is
literally `"purge"` and every dated record survives. -/
def purgeRouteDispatch (store : List Task) : List Task :=
  store.filter (fun t => !(t.id == "purge"))

/-- The pure state change of `syncStreakToCloud` (V5 and V9 variants): when
the computed count differs from the stored one, the optimistic local user
gets the new `streakCount` and, for a positive count, today as
`lastCompletedDate`, and a remote write is attempted (second component);
otherwise nothing happens. -/
def syncStreakToCloud (user : User) (newCount : Nat) (today : Int) :
    User × Bool :=
  if newCount != user.streakCount then
    ({ user with
        streakCount := newCount,
        lastCompletedDate :=
          if 0 < newCount then some today else user.lastCompletedDate },
      true)
  else (user, false)

/-- The pure state change of the V10 `syncStateToCloud`: a write happens
when the persistence log or the count changed, and it updates
`streakCount`, `persistenceLog` and (for a positive count)
`lastCompletedDate`. -/
def syncStateToCloud (user : User) (newCount : Nat) (newLog : List Int)
    (today : Int) : User × Bool :=
  let logChanged := newLog != user.persistenceLog
  let countChanged := newCount != user.streakCount
  if logChanged || countChanged then
    ({ user with
        streakCount := newCount,
        persistenceLog := newLog,
        lastCompletedDate :=
          if 0 < newCount then some today else user.lastCompletedDate },
      true)
  else (user, false)

/-- The V9 `loadData` pipeline, restricted to its store and aggregate
effects: fetch the history, run the analyzer, purge after the failure date
when one was found and records exist after it, re-fetch, and sync the
streak.  The synced count is `r.streak` from the analysis of the pre-purge
history; the re-fetched history only feeds the materializer and the local
task lists.  Returns (final store, local user after sync, whether a user
write was attempted). -/
def loadDataV9 (store : List Task) (user : User) (userId : String)
    (today : Int) : List Task × User × Bool :=
  let history := store
  let r := analyzeStreakAndFailures history today user.joinDate
  let store' :=
    match r.failureDate with
    | some b =>
      if history.any (fun t => b < t.date) then
        purgeTasksAfterDate store userId b
      else store
    | none => store
  let s := syncStreakToCloud user r.streak today
  (store', s.1, s.2)

/-! ### Ritual materializer (V5/V9/V10 `loadData`) -/

/-- `history.filter(t => t.date === today)` - today's concrete records. -/
def todaysRecords (history : List Task) (today : Int) : List Task :=
  history.filter (fun t => t.date == today)

/-- `history.filter(t => t.isRecurring)` - the recurring instances. -/
def recurringRecords (history : List Task) : List Task :=
  history.filter (fun t => t.isRecurring)

/-- One step of building `ritualMap`: the JS code runs
`if (!ritualMap.has(t.title) || t.date > ritualMap.get(t.title).date)
ritualMap.set(t.title, t)`.  A JS `Map` keeps the insertion position of an
existing key on update and appends a new key, which the association list
mirrors. -/
def ritualInsert (m : List (String × Task)) (t : Task) :
    List (String × Task) :=
  match m.find? (fun p => p.1 == t.title) with
  | none => m ++ [(t.title, t)]
  | some p =>
    if p.2.date < t.date then
      m.map (fun q => if q.1 == t.title then (t.title, t) else q)
    else m

/-- `ritualMap` after iterating over all recurring records. -/
def buildRitualMap (recurring : List Task) : List (String × Task) :=
  recurring.foldl ritualInsert []

/-- The synthesized virtual record for a template:
`{ ...template, id: virtual-<templateId>-<today>, date: today,
completed: false }`. -/
def virtualFor (template : Task) (today : Int) : Task :=
  { template with
      id := "virtual-" ++ template.id ++ "-" ++ toString today,
      date := today,
      completed := false }

/-- The virtual records pushed by `loadData`: one per ritual-map entry whose
title has no concrete record today, in map order. -/
def materializeVirtuals (history : List Task) (today : Int) : List Task :=
  let existingTitles := (todaysRecords history today).map (fun t => t.title)
  ((buildRitualMap (recurringRecords history)).filter
      (fun p => !existingTitles.contains p.1)).map
    (fun p => virtualFor p.2 today)

/-- `combined = [...todaysActual, ...missingRituals]` - the task list shown
for today. -/
def materializeToday (history : List Task) (today : Int) : List Task :=
  todaysRecords history today ++ materializeVirtuals history today

/-! ### Aggregate sync with a remote environment (V5 toggle pipeline) -/

/-- Outcome of the remote collaborators during one triggering event:
whether the task upsert and the user write succeed. -/
structure RemoteEnv where
  saveTaskOk : Bool
  saveUserOk : Bool
  deriving Repr, DecidableEq

/-- The backend `POST /api/tasks` route:
`Task.findOneAndUpdate({id}, data, {upsert: true})`. -/
def upsertTask (store : List Task) (t : Task) : List Task :=
  if store.any (fun x => x.id == t.id) then
    store.map (fun x => if x.id == t.id then t else x)
  else store ++ [t]

/-- `dbService.saveTask`: the fetch is wrapped in `try { .. } catch (err)
{ console.warn(..) }`, so a failed remote write leaves the store unchanged
and the caller observes a normal return - the failure is swallowed. -/
def dbSaveTask (env : RemoteEnv) (store : List Task) (t : Task) :
    List Task :=
  if env.saveTaskOk then upsertTask store t else store

/-- The client-visible state during one session, together with the remote
store and the remote user aggregate and the toasts shown so far. -/
structure SessionState where
  tasks : List Task
  history : List Task
  user : User
  remoteTasks : List Task
  remoteUser : User
  toasts : List String
  deriving Repr, DecidableEq

/-- The locally observable part of a session state (what the user's UI is
rendered from). -/
def localView (st : SessionState) : List Task × List Task × User × List String :=
  (st.tasks, st.history, st.user, st.toasts)

/-- The V5 `toggleTask` pipeline.  The optimistic task flip happens first;
`dbService.saveTask` never throws (it swallows fetch failures), so the
`catch` branch of `toggleTask` (failure toast plus task rollback) is
unreachable for a remote write failure and is not part of the embedding.
`syncStreakToCloud` updates the local user optimistically and attempts the
remote write; its V5 `catch` only logs to the console.  The success toast
("Validated" in the source, with an emoji) fires when the record became
completed. -/
def toggleTaskV5 (st : SessionState) (env : RemoteEnv)
    (taskId freshId : String) (today : Int) : SessionState :=
  match st.tasks.find? (fun t => t.id == taskId) with
  | none => st
  | some target =>
    let isVirtual := String.startsWith taskId "virtual-"
    let updated : Task :=
      { target with
          completed := !target.completed,
          id := if isVirtual then freshId else target.id }
    let tasks' := st.tasks.map (fun t => if t.id == taskId then updated else t)
    let remoteTasks' := dbSaveTask env st.remoteTasks updated
    let history' :=
      if isVirtual then st.history ++ [updated]
      else st.history.map (fun t => if t.id == taskId then updated else t)
    let newCount := calculateStreakFromHistory history' today st.user.joinDate
    let s := syncStreakToCloud st.user newCount today
    let remoteUser' := if s.2 && env.saveUserOk then s.1 else st.remoteUser
    let toasts' := st.toasts ++ (if updated.completed then ["Validated"] else [])
    ⟨tasks', history', s.1, remoteTasks', remoteUser', toasts'⟩

/-- The first Dashboard variant's `syncStreakToCloud` with its remote
effect: the optimistic `onUpdateUser` runs before the awaited write, and
the `catch` branch surfaces a toast (`err.message || "Sync Error"`).
Returns (local user, remote user, toasts emitted). -/
def syncStreakToCloudV1 (user remoteUser : User) (env : RemoteEnv)
    (newCount : Nat) (today : Int) : User × User × List String :=
  if newCount != user.streakCount then
    let updatedUser : User :=
      { user with
          streakCount := newCount,
          lastCompletedDate :=
            if 0 < newCount then some today else user.lastCompletedDate }
    if env.saveUserOk then (updatedUser, updatedUser, [])
    else (updatedUser, remoteUser, ["Sync Error"])
  else (user, remoteUser, [])

/-! ### The log-based V13 engine -/

/-- The `.sort()` applied to the persistence log (lexicographic on date
strings equals numeric order on day numbers). -/
def sortLog (l : List Int) : List Int :=
  l.insertionSort (fun a b => a ≤ b)

/-- The V13 `toggleTask`: flip the definition's id in `completedToday`;
when every definition is completed the day enters the (sorted) log and
`streakCount` becomes the log's length; when the day stops being perfect it
leaves the log and `streakCount` becomes the log's length; otherwise the
counter and log are passed through unchanged.  The resulting user is always
passed to `dbService.saveUser`. -/
def toggleTaskV13 (user : User) (taskId : String) (today : Int) : User :=
  let isCompleted := user.completedToday.contains taskId
  let newCompletedToday :=
    if isCompleted then user.completedToday.filter (fun i => i != taskId)
    else user.completedToday ++ [taskId]
  let u := { user with completedToday := newCompletedToday }
  let allDone := !user.taskDefinitions.isEmpty &&
    user.taskDefinitions.all (fun d => newCompletedToday.contains d.id)
  if allDone then
    if !u.persistenceLog.contains today then
      let log := sortLog (u.persistenceLog ++ [today])
      { u with persistenceLog := log, streakCount := log.length }
    else u
  else
    if u.persistenceLog.contains today then
      let log := u.persistenceLog.filter (fun d => d != today)
      { u with persistenceLog := log, streakCount := log.length }
    else u

/-- The V13 `deleteTask`: drop the definition and its completion, re-derive
today's membership in the log, and always set
`streakCount = persistenceLog.length`. -/
def deleteTaskV13 (user : User) (taskId : String) (today : Int) : User :=
  let defs := user.taskDefinitions.filter (fun d => d.id != taskId)
  let comp := user.completedToday.filter (fun i => i != taskId)
  let u := { user with taskDefinitions := defs, completedToday := comp }
  let allDone := !defs.isEmpty && defs.all (fun d => comp.contains d.id)
  let log :=
    if allDone && !u.persistenceLog.contains today then
      sortLog (u.persistenceLog ++ [today])
    else if !allDone && u.persistenceLog.contains today then
      u.persistenceLog.filter (fun d => d != today)
    else u.persistenceLog
  { u with persistenceLog := log, streakCount := log.length }

/-- The V13 `performSequenceValidation`: on a calendar-day transition the
active date moves to today and `completedToday` resets; when the user has
definitions and a non-empty (sorted) log, a gap (last entry neither today
nor yesterday) or an incomplete yesterday (active yesterday but yesterday
not logged) wipes the log and zeroes the counter.  `none` means
`needsUpdate` stayed false and nothing is passed to persistence. -/
def performSequenceValidation (user : User) (today : Int) : Option User :=
  let safeLog := sortLog user.persistenceLog
  let lastActive := user.lastActiveDate
  let dayChanged := lastActive != some today
  let u1 :=
    if dayChanged then
      { user with lastActiveDate := some today, completedToday := [] }
    else user
  let breach :=
    if !user.taskDefinitions.isEmpty && !safeLog.isEmpty then
      let lastEntry := safeLog.getLast?.getD 0
      let streakIsBroken := lastEntry != today && lastEntry != today - 1
      let wasActiveYesterday := lastActive == some (today - 1)
      let finishedYesterday := safeLog.contains (today - 1)
      streakIsBroken || (wasActiveYesterday && !finishedYesterday)
    else false
  let u2 :=
    if breach then { u1 with persistenceLog := [], streakCount := 0 } else u1
  if dayChanged || breach then some u2 else none

/-- The freshly registered user (AuthPage `newUser` plus the backend
schema defaults for the fields the client omits): streak 0, empty log. -/
def initialUser (id username email : String) (joinDate : Int) : User :=
  { id := id, username := username, email := email, streakCount := 0,
    lastCompletedDate := none, joinDate := joinDate }

/-! ### Concrete input families used by the claims -/

/-- A single completed record on day `d` (used to build long perfect
histories). -/
def perfectRecord (d : Int) : Task :=
  { id := "r", userId := "u", title := "T", completed := true, date := d,
    isRecurring := false }

/-- A history with exactly one completed record on each of the days
`1, ..., n`: every one of those days is perfect. -/
def perfectHistory : Nat → List Task
  | 0 => []
  | n + 1 => perfectHistory n ++ [perfectRecord ((n : Int) + 1)]

/-- Scenario 3's recurring template: "Meditate", dated day 1, with a
reminder time. -/
def meditateTemplate : Task :=
  { id := "tpl", userId := "u", title := "Meditate", completed := true,
    date := 1, isRecurring := true, reminderTime := some "08:00" }

/-- A concrete session: one not-yet-completed real task "t1" dated day 5,
today = 5, a fresh user. -/
def sampleToggleState : SessionState :=
  { tasks := [{ id := "t1", userId := "u", title := "A", completed := false,
                date := 5, isRecurring := false }],
    history := [{ id := "t1", userId := "u", title := "A", completed := false,
                  date := 5, isRecurring := false }],
    user := initialUser "u" "n" "e" 5,
    remoteTasks := [{ id := "t1", userId := "u", title := "A",
                      completed := false, date := 5, isRecurring := false }],
    remoteUser := initialUser "u" "n" "e" 5,
    toasts := [] }

/-! ## Helper lemmas -/

/-- On a day with records, `isDayPerfect` is the all-completed check. -/
theorem isDayPerfect_eq_all (history : List Task) (d : Int)
    (hne : (tasksOn history d).isEmpty = false) :
    isDayPerfect history d = (tasksOn history d).all (fun t => t.completed) := by
  unfold isDayPerfect
  simp [hne]

/-- A failure date reported by the V9/V5 safety loop lies at or before the
cursor the loop started from. -/
theorem analyzeLoop_failure_le (history : List Task) (joinDate : Int) :
    ∀ (fuel streak : Nat) (checkDate f : Int),
      (analyzeLoop history joinDate streak checkDate fuel).2 = some f →
      f ≤ checkDate := by
  intro fuel
  induction fuel with
  | zero =>
    intro s c f h
    simp [analyzeLoop] at h
  | succ n ih =>
    intro s c f h
    unfold analyzeLoop at h
    by_cases hp : isDayPerfect history c = true
    · rw [if_pos hp] at h
      have hle := ih _ _ _ h
      omega
    · rw [if_neg hp] at h
      by_cases hj : c < joinDate
      · rw [if_pos hj] at h
        simp at h
      · rw [if_neg hj] at h
        have hcf : c = f := by simpa using h
        omega

/-- When the loop starts on a perfect day, a reported failure date lies
strictly before that day. -/
theorem analyzeLoop_failure_lt_of_perfect (history : List Task)
    (joinDate : Int) (fuel streak : Nat) (checkDate f : Int)
    (hp : isDayPerfect history checkDate = true)
    (h : (analyzeLoop history joinDate streak checkDate (fuel + 1)).2 = some f) :
    f ≤ checkDate - 1 := by
  unfold analyzeLoop at h
  rw [if_pos hp] at h
  exact analyzeLoop_failure_le history joinDate fuel (streak + 1)
    (checkDate - 1) f h

/-- After a purge for `afterDate`, a day strictly after it has no records
(provided the history belongs to the purged user). -/
theorem tasksOn_purge_late (h : List Task) (uid : String) (B d : Int)
    (huid : ∀ t ∈ h, t.userId = uid) (hd : B < d) :
    tasksOn (purgeTasksAfterDate h uid B) d = [] := by
  rw [tasksOn, List.filter_eq_nil_iff]
  intro t ht
  have hmem := List.mem_filter.mp ht
  have h1 := huid t hmem.1
  have h2 := hmem.2
  simp [h1] at h2
  simp
  omega

/-- The V10 nuclear walk reports a failure date only for a day that has
records, not all of them completed. -/
theorem nuclearWalk_failure_spec (history : List Task) (today joinDate : Int) :
    ∀ (fuel : Nat) (checkDate : Int) (streak : Nat) (log : List Int) (f : Int),
      (nuclearWalk history today joinDate checkDate streak log fuel).failureDate
        = some f →
      tasksOn history f ≠ [] ∧
      (tasksOn history f).all (fun t => t.completed) = false := by
  intro fuel
  induction fuel with
  | zero =>
    intro c s log f h
    simp [nuclearWalk] at h
  | succ n ih =>
    intro c s log f h
    unfold nuclearWalk at h
    by_cases hj : c < joinDate
    · rw [if_pos hj] at h
      simp at h
    · rw [if_neg hj] at h
      by_cases ht : (c == today) = true
      · rw [if_pos ht] at h
        by_cases hp : isDayPerfect history c = true
        · rw [if_pos hp] at h
          exact ih _ _ _ _ h
        · rw [if_neg hp] at h
          exact ih _ _ _ _ h
      · rw [if_neg ht] at h
        by_cases he : (tasksOn history c).isEmpty = true
        · rw [if_pos he] at h
          exact ih _ _ _ _ h
        · rw [if_neg he] at h
          by_cases hp : isDayPerfect history c = true
          · rw [if_pos hp] at h
            exact ih _ _ _ _ h
          · rw [if_neg hp] at h
            have hcf : c = f := by simpa using h
            subst hcf
            have hne : (tasksOn history c).isEmpty = false := by
              simpa using he
            have hnp : isDayPerfect history c = false := by
              simpa using hp
            rw [isDayPerfect_eq_all history c hne] at hnp
            refine ⟨?_, hnp⟩
            intro hnil
            rw [hnil] at hne
            simp at hne

/-! ## Claims -/

/-- Claim C1, counterexample.  The V9 evaluator does report an idle day as
the failure date: with a single record on day 3 and today = 10
(join date 0), neither today nor yesterday is perfect, so the analyzer
reports yesterday - day 9 - as the failure date although day 9 lies between
the join date and today and has zero records.  This contradicts the claim
that a breach is reported only for a day that has at least one record. -/
theorem c1_idle_day_reported_as_failure :
    (analyzeStreakAndFailures
        [{ id := "a", userId := "u", title := "T", completed := true,
           date := 3, isRecurring := false }] 10 0).failureDate = some 9 ∧
    tasksOn
        [{ id := "a", userId := "u", title := "T", completed := true,
           date := 3, isRecurring := false }] 9 = [] ∧
    (0 : Int) ≤ 9 ∧ (9 : Int) ≤ 10 := by
  refine ⟨by decide, by decide, by decide, by decide⟩

/-- Claim C3 (amended).  The V9 `loadData` pipeline does not re-run the
evaluator after a purge: the streak it hands to the aggregate sync is
always the evaluator's result on the pre-purge history, so the persisted
`streakCount` equals the pre-purge streak whether or not a purge fired. -/
theorem c3_loadData_persists_pre_purge_streak
    (store : List Task) (user : User) (userId : String) (today : Int) :
    ((loadDataV9 store user userId today).2.1).streakCount =
      (analyzeStreakAndFailures store today user.joinDate).streak := by
  unfold loadDataV9 syncStreakToCloud
  by_cases h : (analyzeStreakAndFailures store today user.joinDate).streak
      = user.streakCount
  · simp [h]
  · simp [h]

/-- Claim C3, counterexample.  With records (day 10 complete, day 9
complete, day 8 incomplete), today = 10 and join date 0, `loadData` finds
the breach on day 8, purges the records after day 8, but persists the
pre-purge streak 2, while the evaluator recomputed on the cleaned,
post-purge store yields streak 0 - the persisted value is not the
post-purge result. -/
theorem c3_persisted_streak_differs_from_post_purge :
    ((loadDataV9
        [{ id := "x1", userId := "u", title := "T", completed := true,
           date := 10, isRecurring := false },
         { id := "x2", userId := "u", title := "T", completed := true,
           date := 9, isRecurring := false },
         { id := "x3", userId := "u", title := "T", completed := false,
           date := 8, isRecurring := false }]
        (initialUser "u" "n" "e" 0) "u" 10).2.1).streakCount = 2 ∧
    (analyzeStreakAndFailures
        ((loadDataV9
          [{ id := "x1", userId := "u", title := "T", completed := true,
             date := 10, isRecurring := false },
           { id := "x2", userId := "u", title := "T", completed := true,
             date := 9, isRecurring := false },
           { id := "x3", userId := "u", title := "T", completed := false,
             date := 8, isRecurring := false }]
          (initialUser "u" "n" "e" 0) "u" 10).1) 10 0).streak = 0 ∧
    (2 : Nat) ≠ 0 := by
  refine ⟨by decide, by decide, by decide⟩

/-- Claim C4, counterexample.  After the purge-firing `loadData` run of the
previous scenario (records on days 18..20, breach on 18, today 20, join
date 15), the persisted `streakCount` is 2, but recomputing the streak from
the user's stored task-record history (now only day 18's incomplete record)
yields 0: the cached count diverges from what the history implies. -/
theorem c4_cache_diverges_after_purge :
    ((loadDataV9
        [{ id := "y1", userId := "u", title := "T", completed := true,
           date := 20, isRecurring := false },
         { id := "y2", userId := "u", title := "T", completed := true,
           date := 19, isRecurring := false },
         { id := "y3", userId := "u", title := "T", completed := false,
           date := 18, isRecurring := false }]
        (initialUser "u" "n" "e" 15) "u" 20).2.1).streakCount = 2 ∧
    (analyzeStreakAndFailures
        ((loadDataV9
          [{ id := "y1", userId := "u", title := "T", completed := true,
             date := 20, isRecurring := false },
           { id := "y2", userId := "u", title := "T", completed := true,
             date := 19, isRecurring := false },
           { id := "y3", userId := "u", title := "T", completed := false,
             date := 18, isRecurring := false }]
          (initialUser "u" "n" "e" 15) "u" 20).1) 20 15).streak = 0 ∧
    (2 : Nat) ≠ 0 := by
  refine ⟨by decide, by decide, by decide⟩

/-- Claim C4 (amended).  The aggregate sync always persists exactly the
count the pipeline computed, and for a completed `loadData` run that finds
no breach (hence fires no purge) the persisted `streakCount` equals the
evaluator recomputed on the stored history - the cache is reproducible from
the store for purge-free runs. -/
theorem c4_cache_matches_recompute_without_purge :
    (∀ (user : User) (n : Nat) (today : Int),
        ((syncStreakToCloud user n today).1).streakCount = n) ∧
    (∀ (store : List Task) (user : User) (userId : String) (today : Int),
        (analyzeStreakAndFailures store today user.joinDate).failureDate = none →
        ((loadDataV9 store user userId today).2.1).streakCount =
          (analyzeStreakAndFailures
            ((loadDataV9 store user userId today).1) today user.joinDate).streak) := by
  constructor
  · intro user n today
    unfold syncStreakToCloud
    by_cases h : n = user.streakCount
    · simp [h]
    · simp [h]
  · intro store user userId today hnone
    by_cases h : (analyzeStreakAndFailures store today user.joinDate).streak
        = user.streakCount
    · simp [loadDataV9, syncStreakToCloud, hnone, h]
    · simp [loadDataV9, syncStreakToCloud, hnone, h]

/-- Claim C4, witness for the amended theorem at concrete inputs. -/
theorem c4_cache_matches_recompute_without_purge_witness :
    ((syncStreakToCloud (initialUser "u" "n" "e" 0) 3 7).1).streakCount = 3 ∧
    ((loadDataV9
        [{ id := "w1", userId := "u", title := "T", completed := true,
           date := 7, isRecurring := false }]
        (initialUser "u" "n" "e" 7) "u" 7).2.1).streakCount =
      (analyzeStreakAndFailures
        ((loadDataV9
          [{ id := "w1", userId := "u", title := "T", completed := true,
             date := 7, isRecurring := false }]
          (initialUser "u" "n" "e" 7) "u" 7).1) 7 7).streak := by
  refine ⟨c4_cache_matches_recompute_without_purge.1 (initialUser "u" "n" "e" 0) 3 7,
    c4_cache_matches_recompute_without_purge.2
      [{ id := "w1", userId := "u", title := "T", completed := true,
         date := 7, isRecurring := false }]
      (initialUser "u" "n" "e" 7) "u" 7 (by decide)⟩

/-- Claim C6 (confirmed).  Scenario 2 of the specification, with
2024-01-01, 2024-01-02, 2024-01-03 encoded as day numbers 1, 2, 3: on the
history (one completed record on day 1, one incomplete record on day 2)
with today = 3 and join date 1, the V9 evaluator returns streak 0 with
failure date day 2 (= 2024-01-02), and the safety-bounded
`calculateStreakFromHistory` returns streak 0 as well. -/
theorem c6_scenario_two :
    analyzeStreakAndFailures
        [{ id := "a", userId := "u", title := "Read", completed := true,
           date := 1, isRecurring := false },
         { id := "b", userId := "u", title := "Gym", completed := false,
           date := 2, isRecurring := false }] 3 1 =
      ⟨0, some 2⟩ ∧
    calculateStreakFromHistory
        [{ id := "a", userId := "u", title := "Read", completed := true,
           date := 1, isRecurring := false },
         { id := "b", userId := "u", title := "Gym", completed := false,
           date := 2, isRecurring := false }] 3 1 = 0 := by
  refine ⟨by decide, by decide⟩

/-- Claim C8, counterexample.  The V10 `syncStateToCloud` performs a write
even though the computed streak equals the stored `streakCount`, because
the persistence log changed; the write also modifies `persistenceLog`, a
field other than `streakCount` and `lastCompletedDate`.  Here the stored
count is 0, the computed count is 0, yet a write happens and the stored log
`[5]` is replaced by `[]`. -/
theorem c8_log_change_writes_despite_equal_count :
    (0 : Nat) =
      (User.mk "u" "n" none none "e" 0 none none [5] [] [] 0).streakCount ∧
    (syncStateToCloud
        (User.mk "u" "n" none none "e" 0 none none [5] [] [] 0) 0 [] 9).2 = true ∧
    ((syncStateToCloud
        (User.mk "u" "n" none none "e" 0 none none [5] [] [] 0) 0 [] 9).1).persistenceLog ≠
      (User.mk "u" "n" none none "e" 0 none none [5] [] [] 0).persistenceLog := by
  refine ⟨by decide, by decide, by decide⟩

/-- Claim C8 (amended).  For the streak-count sync (`syncStreakToCloud`,
V1/V5/V9) the claim holds: an equal count performs no write and leaves the
aggregate unchanged, and a differing count writes while changing only
`streakCount` and `lastCompletedDate`.  The V10 `syncStateToCloud` instead
skips the write only when both the count and the persistence log are
unchanged, and its write additionally updates `persistenceLog`; all fields
other than `streakCount`, `persistenceLog` and `lastCompletedDate` are
still left unchanged. -/
theorem c8_sync_noop_and_frame :
    (∀ (u : User) (n : Nat) (t : Int), n = u.streakCount →
        syncStreakToCloud u n t = (u, false)) ∧
    (∀ (u : User) (n : Nat) (t : Int), n ≠ u.streakCount →
        (syncStreakToCloud u n t).2 = true ∧
        ((syncStreakToCloud u n t).1).id = u.id ∧
        ((syncStreakToCloud u n t).1).username = u.username ∧
        ((syncStreakToCloud u n t).1).password = u.password ∧
        ((syncStreakToCloud u n t).1).role = u.role ∧
        ((syncStreakToCloud u n t).1).email = u.email ∧
        ((syncStreakToCloud u n t).1).lastActiveDate = u.lastActiveDate ∧
        ((syncStreakToCloud u n t).1).persistenceLog = u.persistenceLog ∧
        ((syncStreakToCloud u n t).1).taskDefinitions = u.taskDefinitions ∧
        ((syncStreakToCloud u n t).1).completedToday = u.completedToday ∧
        ((syncStreakToCloud u n t).1).joinDate = u.joinDate) ∧
    (∀ (u : User) (n : Nat) (log : List Int) (t : Int),
        ((syncStateToCloud u n log t).2 = false ↔
          n = u.streakCount ∧ log = u.persistenceLog) ∧
        ((syncStateToCloud u n log t).2 = false →
          (syncStateToCloud u n log t).1 = u) ∧
        ((syncStateToCloud u n log t).1).id = u.id ∧
        ((syncStateToCloud u n log t).1).username = u.username ∧
        ((syncStateToCloud u n log t).1).email = u.email ∧
        ((syncStateToCloud u n log t).1).taskDefinitions = u.taskDefinitions ∧
        ((syncStateToCloud u n log t).1).completedToday = u.completedToday ∧
        ((syncStateToCloud u n log t).1).joinDate = u.joinDate) := by
  refine ⟨?_, ?_, ?_⟩
  · intro u n t h
    unfold syncStreakToCloud
    simp [h]
  · intro u n t h
    unfold syncStreakToCloud
    simp [h]
  · intro u n log t
    unfold syncStateToCloud
    by_cases hl : log = u.persistenceLog <;>
      by_cases hn : n = u.streakCount <;>
        simp [hl, hn]

/-- Claim C8, witness for the amended theorem at concrete inputs. -/
theorem c8_sync_noop_and_frame_witness :
    syncStreakToCloud (initialUser "u" "n" "e" 0) 0 9 =
      (initialUser "u" "n" "e" 0, false) ∧
    (syncStreakToCloud (initialUser "u" "n" "e" 0) 4 9).2 = true ∧
    ((syncStateToCloud (initialUser "u" "n" "e" 0) 0 [] 9).2 = false ↔
      0 = (initialUser "u" "n" "e" 0).streakCount ∧
      [] = (initialUser "u" "n" "e" 0).persistenceLog) := by
  refine ⟨c8_sync_noop_and_frame.1 (initialUser "u" "n" "e" 0) 0 9 (by decide),
    (c8_sync_noop_and_frame.2.1 (initialUser "u" "n" "e" 0) 4 9 (by decide)).1,
    (c8_sync_noop_and_frame.2.2 (initialUser "u" "n" "e" 0) 0 [] 9).1⟩

/-- Claim C1 (amended).  A day with zero records is never perfect, so it
never contributes a streak increment in any evaluator variant (every
increment is guarded by `isDayPerfect`), and the V10 nuclear evaluator
reports a failure date only for a day that has at least one record with not
all records completed.  The V9 evaluator, however, can report an idle day
(yesterday) as the failure date - see the counterexample. -/
theorem c1_breach_requires_records_nuclear :
    (∀ (history : List Task) (d : Int),
        tasksOn history d = [] → isDayPerfect history d = false) ∧
    (∀ (history : List Task) (today joinDate f : Int),
        (analyzeNuclear history today joinDate).failureDate = some f →
        tasksOn history f ≠ [] ∧
        (tasksOn history f).all (fun t => t.completed) = false) := by
  constructor
  · intro history d hd
    unfold isDayPerfect
    simp [hd]
  · intro history today joinDate f hf
    unfold analyzeNuclear at hf
    by_cases he : history.isEmpty
    · rw [if_pos he] at hf
      simp at hf
    · rw [if_neg he] at hf
      exact nuclearWalk_failure_spec history today joinDate _ _ _ _ _ hf

/-- Claim C1, witness for the amended theorem: an idle day is not perfect,
and the failure day 5 reported by the nuclear evaluator on a concrete
history (one incomplete record on day 5, today 6, join date 4) indeed has a
record that is not completed. -/
theorem c1_breach_requires_records_nuclear_witness :
    isDayPerfect
      [{ id := "a", userId := "u", title := "T", completed := false,
         date := 5, isRecurring := false }] 7 = false ∧
    (tasksOn
      [{ id := "a", userId := "u", title := "T", completed := false,
         date := 5, isRecurring := false }] 5 ≠ [] ∧
     (tasksOn
      [{ id := "a", userId := "u", title := "T", completed := false,
         date := 5, isRecurring := false }] 5).all
        (fun t => t.completed) = false) := by
  refine ⟨c1_breach_requires_records_nuclear.1 _ 7 (by decide),
    c1_breach_requires_records_nuclear.2 _ 6 4 5 (by decide)⟩

/-- Claim C2, counterexample.  On the history (day 10 complete, day 9
complete, day 8 incomplete) with today = 10 and join date 0, the V9
evaluator reports the breach `B = 8`; after the purge for `B = 8` (which
deletes the records of days 9 and 10), re-running the evaluator on the
resulting history reports failure date 9, which lies in the interval
`(8, 10]` - the claimed purge closure fails. -/
theorem c2_purge_then_breach_at_yesterday :
    (analyzeStreakAndFailures
        [{ id := "x1", userId := "u", title := "T", completed := true,
           date := 10, isRecurring := false },
         { id := "x2", userId := "u", title := "T", completed := true,
           date := 9, isRecurring := false },
         { id := "x3", userId := "u", title := "T", completed := false,
           date := 8, isRecurring := false }] 10 0) = ⟨2, some 8⟩ ∧
    (analyzeStreakAndFailures
        (purgeTasksAfterDate
          [{ id := "x1", userId := "u", title := "T", completed := true,
             date := 10, isRecurring := false },
           { id := "x2", userId := "u", title := "T", completed := true,
             date := 9, isRecurring := false },
           { id := "x3", userId := "u", title := "T", completed := false,
             date := 8, isRecurring := false }] "u" 8) 10 0) = ⟨0, some 9⟩ ∧
    (8 : Int) < 9 ∧ (9 : Int) ≤ 10 := by
  refine ⟨by decide, by decide, by decide, by decide⟩

/-- Claim C2 (amended).  After a purge for date `B` of a single-user
history, any failure date the V9 evaluator reports strictly after `B` is
exactly yesterday (`today - 1`): a purged history has no records after `B`,
so a breach inside `(B, today]` can only arise from the idle-yesterday
branch of the evaluator.  Breach dates in `(B, today - 1)` are never
reported. -/
theorem c2_post_purge_breach_only_yesterday
    (h : List Task) (uid : String) (B today joinDate f : Int)
    (huid : ∀ t ∈ h, t.userId = uid)
    (hf : (analyzeStreakAndFailures (purgeTasksAfterDate h uid B) today
        joinDate).failureDate = some f)
    (hBf : B < f) : f = today - 1 := by
  have hpur : ∀ d : Int, B < d →
      tasksOn (purgeTasksAfterDate h uid B) d = [] := by
    intro d hd
    exact tasksOn_purge_late h uid B d huid hd
  unfold analyzeStreakAndFailures at hf
  by_cases he : (purgeTasksAfterDate h uid B).isEmpty
  · rw [if_pos he] at hf
    simp at hf
  · rw [if_neg he] at hf
    by_cases hpt : isDayPerfect (purgeTasksAfterDate h uid B) today = true
    · rw [if_pos hpt] at hf
      simp only at hf
      have hle := analyzeLoop_failure_le (purgeTasksAfterDate h uid B)
        joinDate 3650 1 (today - 1) f hf
      have htB : ¬ B < today := by
        intro hlt
        have hempty := hpur today hlt
        unfold isDayPerfect at hpt
        rw [hempty] at hpt
        simp at hpt
      omega
    · rw [if_neg hpt] at hf
      by_cases hpy : isDayPerfect (purgeTasksAfterDate h uid B) (today - 1)
          = true
      · rw [if_pos hpy] at hf
        simp only at hf
        have hyB : ¬ B < today - 1 := by
          intro hlt
          have hempty := hpur (today - 1) hlt
          unfold isDayPerfect at hpy
          rw [hempty] at hpy
          simp at hpy
        have hlt := analyzeLoop_failure_lt_of_perfect
          (purgeTasksAfterDate h uid B) joinDate 3649 0 (today - 1) f hpy hf
        omega
      · rw [if_neg hpy] at hf
        simpa using hf.symm

/-- Claim C2, witness for the amended theorem: on the purged concrete
history of the counterexample, the reported failure date 9 satisfies
`B = 8 < 9` and the theorem forces it to equal `today - 1 = 9`. -/
theorem c2_post_purge_breach_only_yesterday_witness :
    (analyzeStreakAndFailures
        (purgeTasksAfterDate
          [{ id := "x1", userId := "u", title := "T", completed := true,
             date := 10, isRecurring := false },
           { id := "x2", userId := "u", title := "T", completed := true,
             date := 9, isRecurring := false },
           { id := "x3", userId := "u", title := "T", completed := false,
             date := 8, isRecurring := false }] "u" 8) 10 0).failureDate
      = some 9 ∧
    (9 : Int) = 10 - 1 := by
  refine ⟨by decide, ?_⟩
  exact c2_post_purge_breach_only_yesterday
    [{ id := "x1", userId := "u", title := "T", completed := true,
       date := 10, isRecurring := false },
     { id := "x2", userId := "u", title := "T", completed := true,
       date := 9, isRecurring := false },
     { id := "x3", userId := "u", title := "T", completed := false,
       date := 8, isRecurring := false }] "u" 8 10 0 9
    (by decide) (by decide) (by decide)

/-- The instrumented safety loop never executes more iterations than its
fuel (3650 at the call site). -/
theorem v5Walk_steps_le (history : List Task) (joinDate : Int) :
    ∀ (fuel streak : Nat) (checkDate : Int),
      (v5Walk history joinDate streak checkDate fuel).2 ≤ fuel := by
  intro fuel
  induction fuel with
  | zero =>
    intro s c
    simp [v5Walk]
  | succ n ih =>
    intro s c
    unfold v5Walk
    by_cases hp : isDayPerfect history c = true
    · rw [if_pos hp]
      have hle := ih (s + 1) (c - 1)
      simpa using hle
    · rw [if_neg hp]
      by_cases hj : c < joinDate
      · rw [if_pos hj]
        omega
      · rw [if_neg hj]
        omega

/-- The safety loop's result does not depend on the join date: at a
non-perfect day the source breaks out of the loop in both arms of the
`dStr < joinDateStr` test. -/
theorem v5Walk_joinDate_irrelevant (history : List Task) :
    ∀ (fuel streak : Nat) (checkDate : Int) (j j' : Int),
      v5Walk history j streak checkDate fuel =
        v5Walk history j' streak checkDate fuel := by
  intro fuel
  induction fuel with
  | zero =>
    intro s c j j'
    rfl
  | succ n ih =>
    intro s c j j'
    unfold v5Walk
    by_cases hp : isDayPerfect history c = true
    · rw [if_pos hp, if_pos hp, ih (s + 1) (c - 1) j j']
    · rw [if_neg hp, if_neg hp]
      by_cases hj : c < j <;> by_cases hj' : c < j' <;>
        simp [hj, hj']

/-- The records of day `d` in `perfectHistory n`: exactly the one completed
record when `1 ≤ d ≤ n`, nothing otherwise. -/
theorem tasksOn_perfectHistory (d : Int) :
    ∀ n : Nat, tasksOn (perfectHistory n) d =
      if 1 ≤ d ∧ d ≤ (n : Int) then [perfectRecord d] else [] := by
  intro n
  induction n with
  | zero =>
    rw [if_neg (by omega)]
    rfl
  | succ n ih =>
    unfold perfectHistory
    rw [tasksOn, List.filter_append]
    rw [tasksOn] at ih
    rw [ih]
    by_cases hd : d = (n : Int) + 1
    · rw [if_neg (by omega), if_pos (by constructor <;> omega)]
      subst hd
      simp [perfectRecord]
    · have hfilter :
          List.filter (fun t => t.date == d) [perfectRecord ((n : Int) + 1)]
            = [] := by
        simp [perfectRecord]
        omega
      rw [hfilter]
      by_cases hin : 1 ≤ d ∧ d ≤ (n : Int)
      · rw [if_pos hin, if_pos (by omega)]
        simp
      · rw [if_neg hin, if_neg (by omega)]
        simp

/-- Every day `1 ≤ d ≤ n` of `perfectHistory n` is perfect. -/
theorem isDayPerfect_perfectHistory (n : Nat) (d : Int)
    (h1 : 1 ≤ d) (h2 : d ≤ (n : Int)) :
    isDayPerfect (perfectHistory n) d = true := by
  have ht := tasksOn_perfectHistory d n
  rw [if_pos ⟨h1, h2⟩] at ht
  unfold isDayPerfect
  rw [ht]
  simp [perfectRecord]

/-- Starting at day `d ≥ k` inside the perfect range, the unbounded V1 walk
does not leave its loop within `k` iterations. -/
theorem v1_no_stop (n : Nat) :
    ∀ (k : Nat) (d : Int), (k : Int) ≤ d → d ≤ (n : Int) →
      calculateStreakV1Stops (perfectHistory n) d k = false := by
  intro k
  induction k with
  | zero =>
    intro d _ _
    rfl
  | succ m ih =>
    intro d hk hd
    have h1 : 1 ≤ d := by
      have : ((m : Int) + 1) ≤ d := by
        push_cast at hk
        omega
      omega
    unfold calculateStreakV1Stops
    rw [if_pos (isDayPerfect_perfectHistory n d h1 hd)]
    refine ih (d - 1) ?_ ?_
    · push_cast at hk ⊢
      omega
    · omega

/-- Claim C5, counterexample.  The first Dashboard variant's walk has no
safety counter: on a history with 3650 consecutive perfect days (days
1..3650, today = 3651) the `while (true)` loop, started at yesterday
(day 3650), has not terminated after 3650 iterations - the claimed
3650-iteration bound fails for that evaluator. -/
theorem c5_v1_walk_exceeds_bound :
    calculateStreakV1Stops (perfectHistory 3650) 3650 3650 = false :=
  v1_no_stop 3650 3650 3650 (by norm_num) (by norm_num)

/-- Claim C5 (amended).  "STREAK ENGINE 5.0" (the variant with the safety
counter) terminates after at most 3650 loop iterations on every history,
returning the streak accumulated so far, and its result is independent of
the join date - also when the join-date bookkeeping is corrupt - because
both arms of its join-date test leave the loop.  The earlier variant's
unbounded walk violates the 3650-iteration bound (see the
counterexample). -/
theorem c5_v5_walk_bounded_and_joinDate_irrelevant :
    (∀ (history : List Task) (joinDate : Int) (streak : Nat)
        (checkDate : Int),
        (v5Walk history joinDate streak checkDate 3650).2 ≤ 3650) ∧
    (∀ (history : List Task) (today j j' : Int),
        calculateStreakFromHistory history today j =
          calculateStreakFromHistory history today j') := by
  constructor
  · intro history joinDate streak checkDate
    exact v5Walk_steps_le history joinDate 3650 streak checkDate
  · intro history today j j'
    unfold calculateStreakFromHistory
    by_cases he : history.isEmpty
    · rw [if_pos he, if_pos he]
    · rw [if_neg he, if_neg he]
      exact congrArg Prod.fst
        (v5Walk_joinDate_irrelevant history 3650
          (if isDayPerfect history today then 1 else 0) (today - 1) j j')

/-- Claim C9, counterexample.  When the remote task write fails during a
toggle, `dbService.saveTask` swallows the failure, so the pipeline runs its
success path: the remote store is left without the update, yet the only
toast shown is the success toast - no failure notification is surfaced,
contradicting the claim that a transient notification is surfaced on a
remote write failure. -/
theorem c9_swallowed_task_write_failure_no_toast :
    (toggleTaskV5 sampleToggleState ⟨false, false⟩ "t1" "f" 5).toasts
      = ["Validated"] ∧
    (toggleTaskV5 sampleToggleState ⟨false, false⟩ "t1" "f" 5).remoteTasks
      = sampleToggleState.remoteTasks ∧
    (toggleTaskV5 sampleToggleState ⟨true, true⟩ "t1" "f" 5).remoteTasks
      ≠ sampleToggleState.remoteTasks := by
  refine ⟨by decide, by decide, by decide⟩

/-- Claim C9 (amended).  The locally observable state (task list, history,
user aggregate, toasts) of a toggle run does not depend on whether the
remote writes succeed - the optimistic update is retained and never rolled
back, and each write is attempted once with no retry (the pipeline is a
function of the single environment outcome).  A failure notification is
surfaced only by the first variant's user-aggregate sync, whose catch
branch toasts the error; task-record write failures are swallowed by
`dbService.saveTask` without a notification (see the counterexample). -/
theorem c9_optimistic_state_retained :
    (∀ (st : SessionState) (env : RemoteEnv) (taskId freshId : String)
        (today : Int),
        localView (toggleTaskV5 st env taskId freshId today) =
          localView (toggleTaskV5 st ⟨true, true⟩ taskId freshId today)) ∧
    (∀ (user remoteUser : User) (env : RemoteEnv) (n : Nat) (t : Int),
        env.saveUserOk = false → n ≠ user.streakCount →
        (syncStreakToCloudV1 user remoteUser env n t).1 =
          (syncStreakToCloudV1 user remoteUser ⟨env.saveTaskOk, true⟩ n t).1 ∧
        (syncStreakToCloudV1 user remoteUser env n t).2.1 = remoteUser ∧
        (syncStreakToCloudV1 user remoteUser env n t).2.2 = ["Sync Error"]) := by
  constructor
  · intro st env taskId freshId today
    cases hfind : st.tasks.find? (fun t => t.id == taskId) with
    | none => simp [toggleTaskV5, hfind]
    | some target => simp [toggleTaskV5, hfind, localView]
  · intro user remoteUser env n t henv hn
    have hne : (n != user.streakCount) = true := by
      simpa using hn
    unfold syncStreakToCloudV1
    rw [hne]
    simp [henv]

/-- Claim C9, witness for the amended theorem at concrete inputs. -/
theorem c9_optimistic_state_retained_witness :
    localView (toggleTaskV5 sampleToggleState ⟨false, false⟩ "t1" "f" 5) =
      localView (toggleTaskV5 sampleToggleState ⟨true, true⟩ "t1" "f" 5) ∧
    (syncStreakToCloudV1 (initialUser "u" "n" "e" 5)
        (initialUser "u" "n" "e" 5) ⟨true, false⟩ 1 5).2.2 = ["Sync Error"] := by
  refine ⟨c9_optimistic_state_retained.1 sampleToggleState ⟨false, false⟩
    "t1" "f" 5,
    (c9_optimistic_state_retained.2 (initialUser "u" "n" "e" 5)
      (initialUser "u" "n" "e" 5) ⟨true, false⟩ 1 5 rfl (by decide)).2.2⟩

/-- Claim C10 (confirmed as the run invariant).  A freshly registered user
satisfies `streakCount = persistenceLog.length`; the V13 `toggleTask`
preserves the equation, `deleteTask` re-establishes it unconditionally, and
any user that `performSequenceValidation` passes to persistence satisfies
it again - so along every run of the log-based engine the counter and the
logged perfect-day dates never disagree. -/
theorem c10_log_count_invariant :
    (∀ (i u e : String) (j : Int),
        (initialUser i u e j).streakCount =
          (initialUser i u e j).persistenceLog.length) ∧
    (∀ (user : User) (taskId : String) (today : Int),
        user.streakCount = user.persistenceLog.length →
        (toggleTaskV13 user taskId today).streakCount =
          (toggleTaskV13 user taskId today).persistenceLog.length) ∧
    (∀ (user : User) (taskId : String) (today : Int),
        (deleteTaskV13 user taskId today).streakCount =
          (deleteTaskV13 user taskId today).persistenceLog.length) ∧
    (∀ (user : User) (today : Int) (u' : User),
        user.streakCount = user.persistenceLog.length →
        performSequenceValidation user today = some u' →
        u'.streakCount = u'.persistenceLog.length) := by
  refine ⟨?_, ?_, ?_, ?_⟩
  · intro i u e j
    rfl
  · intro user taskId today hinv
    simp only [toggleTaskV13]
    split_ifs <;> simp [hinv]
  · intro user taskId today
    simp only [deleteTaskV13]
  · intro user today u' hinv hsome
    simp only [performSequenceValidation] at hsome
    split_ifs at hsome <;>
      (simp only [Option.some.injEq] at hsome
       subst hsome
       simp [hinv])

/-- Claim C10, witness: a concrete user with a consistent counter stays
consistent through a toggle that completes the day. -/
theorem c10_log_count_invariant_witness :
    (toggleTaskV13
        { id := "u", username := "n", email := "e", streakCount := 1,
          persistenceLog := [1],
          taskDefinitions := [{ id := "d1", title := "A" }],
          completedToday := [], joinDate := 0 } "d1" 64).streakCount =
      (toggleTaskV13
        { id := "u", username := "n", email := "e", streakCount := 1,
          persistenceLog := [1],
          taskDefinitions := [{ id := "d1", title := "A" }],
          completedToday := [], joinDate := 0 } "d1" 64).persistenceLog.length := by
  exact c10_log_count_invariant.2.1
    { id := "u", username := "n", email := "e", streakCount := 1,
      persistenceLog := [1],
      taskDefinitions := [{ id := "d1", title := "A" }],
      completedToday := [], joinDate := 0 } "d1" 64 (by decide)

/-- Updating an existing key of the ritual map leaves the key list
unchanged (a JS `Map.set` on a present key keeps its position). -/
theorem ritualInsert_update_keys (m : List (String × Task)) (t : Task) :
    (m.map (fun q => if q.1 == t.title then (t.title, t) else q)).map
        Prod.fst = m.map Prod.fst := by
  rw [List.map_map]
  apply List.map_congr_left
  intro q hq
  by_cases h : (q.1 == t.title) = true
  · have hqt : q.1 = t.title := by simpa using h
    simp [Function.comp, h, hqt]
  · simp [Function.comp, h]

/-- One `ritualMap` step keeps the keys duplicate-free. -/
theorem ritualInsert_keys_nodup (m : List (String × Task)) (t : Task)
    (h : (m.map Prod.fst).Nodup) :
    ((ritualInsert m t).map Prod.fst).Nodup := by
  cases hf : m.find? (fun p => p.1 == t.title) with
  | none =>
    simp only [ritualInsert, hf]
    have habs : ∀ key ∈ m.map Prod.fst, key ≠ t.title := by
      intro key hkey hkt
      obtain ⟨p, hp, hpk⟩ := List.mem_map.mp hkey
      have := List.find?_eq_none.mp hf p hp
      simp [hpk, hkt] at this
    rw [List.map_append]
    rw [List.nodup_append]
    refine ⟨h, by simp, ?_⟩
    intro key hkey hkey'
    have : key = t.title := by simpa using hkey'
    exact habs key hkey this
  | some p =>
    simp only [ritualInsert, hf]
    by_cases hd : p.2.date < t.date
    · rw [if_pos hd, ritualInsert_update_keys]
      exact h
    · rw [if_neg hd]
      exact h

/-- Every pair in the map after one step was already present or carries the
inserted record keyed by its title. -/
theorem ritualInsert_mem (m : List (String × Task)) (t : Task)
    (p : String × Task) (hp : p ∈ ritualInsert m t) :
    p ∈ m ∨ p = (t.title, t) := by
  cases hf : m.find? (fun q => q.1 == t.title) with
  | none =>
    simp only [ritualInsert, hf] at hp
    simp only [List.mem_append, List.mem_singleton] at hp
    exact hp
  | some q =>
    simp only [ritualInsert, hf] at hp
    by_cases hd : q.2.date < t.date
    · rw [if_pos hd] at hp
      obtain ⟨q', hq', hq'p⟩ := List.mem_map.mp hp
      by_cases hk : (q'.1 == t.title) = true
      · rw [if_pos hk] at hq'p
        exact Or.inr hq'p.symm
      · rw [if_neg hk] at hq'p
        exact Or.inl (hq'p ▸ hq')
    · rw [if_neg hd] at hp
      exact Or.inl hp

/-- One step preserves "each key is its record's title". -/
theorem ritualInsert_keys_titles (m : List (String × Task)) (t : Task)
    (h : ∀ p ∈ m, p.1 = p.2.title) :
    ∀ p ∈ ritualInsert m t, p.1 = p.2.title := by
  intro p hp
  rcases ritualInsert_mem m t p hp with hm | he
  · exact h p hm
  · rw [he]

/-- A key is present after one step exactly when it was present before or
is the inserted record's title. -/
theorem ritualInsert_keys_iff (m : List (String × Task)) (t : Task)
    (title : String) :
    (∃ p ∈ ritualInsert m t, p.1 = title) ↔
      (∃ p ∈ m, p.1 = title) ∨ title = t.title := by
  constructor
  · intro ⟨p, hp, hpk⟩
    rcases ritualInsert_mem m t p hp with hm | he
    · exact Or.inl ⟨p, hm, hpk⟩
    · right
      rw [he] at hpk
      exact hpk.symm
  · intro hex
    cases hf : m.find? (fun q => q.1 == t.title) with
    | none =>
      simp only [ritualInsert, hf]
      rcases hex with ⟨p, hp, hpk⟩ | ht
      · exact ⟨p, by simp [hp], hpk⟩
      · refine ⟨(t.title, t), by simp, ht.symm⟩
    | some q =>
      simp only [ritualInsert, hf]
      have hqm := List.mem_of_find?_eq_some hf
      have hqt : q.1 = t.title := by
        simpa using List.find?_some hf
      by_cases hd : q.2.date < t.date
      · rw [if_pos hd]
        rcases hex with ⟨p, hp, hpk⟩ | ht
        · refine ⟨(if p.1 == t.title then (t.title, t) else p), ?_, ?_⟩
          · exact List.mem_map.mpr ⟨p, hp, rfl⟩
          · by_cases hk : (p.1 == t.title) = true
            · rw [if_pos hk]
              have : p.1 = t.title := by simpa using hk
              rw [← this]
              exact hpk
            · rw [if_neg hk]
              exact hpk
        · refine ⟨(t.title, t), ?_, ht.symm⟩
          refine List.mem_map.mpr ⟨q, hqm, ?_⟩
          rw [if_pos (by simpa using hqt)]
      · rw [if_neg hd]
        rcases hex with ⟨p, hp, hpk⟩ | ht
        · exact ⟨p, hp, hpk⟩
        · exact ⟨q, hqm, by rw [hqt, ht]⟩

/-- The fold that builds `ritualMap`: keys stay duplicate-free, every entry
is keyed by its record's title with the record drawn from the input, and
the keys are exactly the input titles. -/
theorem foldl_ritualInsert_spec (l : List Task) :
    ∀ m : List (String × Task),
      (m.map Prod.fst).Nodup →
      (∀ p ∈ m, p.1 = p.2.title) →
      ((l.foldl ritualInsert m).map Prod.fst).Nodup ∧
      (∀ p ∈ l.foldl ritualInsert m, p.1 = p.2.title ∧ (p ∈ m ∨ p.2 ∈ l)) ∧
      (∀ title : String,
        (∃ p ∈ l.foldl ritualInsert m, p.1 = title) ↔
          ((∃ p ∈ m, p.1 = title) ∨ ∃ t ∈ l, t.title = title)) := by
  induction l with
  | nil =>
    intro m h1 h2
    refine ⟨h1, ?_, ?_⟩
    · intro p hp
      exact ⟨h2 p hp, Or.inl hp⟩
    · intro title
      simp
  | cons t l ih =>
    intro m h1 h2
    have h1' := ritualInsert_keys_nodup m t h1
    have h2' := ritualInsert_keys_titles m t h2
    obtain ⟨ih1, ih2, ih3⟩ := ih (ritualInsert m t) h1' h2'
    rw [List.foldl_cons]
    refine ⟨ih1, ?_, ?_⟩
    · intro p hp
      obtain ⟨hk, hv⟩ := ih2 p hp
      refine ⟨hk, ?_⟩
      rcases hv with hm' | hl
      · rcases ritualInsert_mem m t p hm' with hm | he
        · exact Or.inl hm
        · right
          rw [he]
          exact List.mem_cons_self t l
      · exact Or.inr (List.mem_cons_of_mem t hl)
    · intro title
      rw [ih3 title, ritualInsert_keys_iff m t title]
      simp only [List.mem_cons]
      constructor
      · rintro ((h | h) | ⟨t', ht', h⟩)
        · exact Or.inl h
        · exact Or.inr ⟨t, Or.inl rfl, h.symm⟩
        · exact Or.inr ⟨t', Or.inr ht', h⟩
      · rintro (h | ⟨t', (rfl | ht'), h⟩)
        · exact Or.inl (Or.inl h)
        · exact Or.inl (Or.inr h.symm)
        · exact Or.inr ⟨t', ht', h⟩

/-- `ritualMap` specification: duplicate-free keys, each entry keyed by its
template's title with the template drawn from the recurring records, keys
exactly the recurring titles. -/
theorem buildRitualMap_spec (recurring : List Task) :
    ((buildRitualMap recurring).map Prod.fst).Nodup ∧
    (∀ p ∈ buildRitualMap recurring, p.1 = p.2.title ∧ p.2 ∈ recurring) ∧
    (∀ title : String,
      (∃ p ∈ buildRitualMap recurring, p.1 = title) ↔
        ∃ t ∈ recurring, t.title = title) := by
  obtain ⟨a, b, c⟩ :=
    foldl_ritualInsert_spec recurring [] (by simp) (by simp)
  unfold buildRitualMap
  refine ⟨a, ?_, ?_⟩
  · intro p hp
    obtain ⟨hk, hv⟩ := b p hp
    refine ⟨hk, ?_⟩
    rcases hv with hm | hl
    · simp at hm
    · exact hl
  · intro title
    rw [c title]
    simp

/-- The virtual records carry pairwise distinct titles: at most one
synthesized record per recurring title. -/
theorem materializeVirtuals_titles_nodup (history : List Task) (today : Int) :
    ((materializeVirtuals history today).map (fun v => v.title)).Nodup := by
  unfold materializeVirtuals
  rw [List.map_map]
  have hcongr :
      ((buildRitualMap (recurringRecords history)).filter
          (fun p =>
            !((todaysRecords history today).map (fun t => t.title)).contains
              p.1)).map
          ((fun v => v.title) ∘ (fun p => virtualFor p.2 today)) =
        ((buildRitualMap (recurringRecords history)).filter
          (fun p =>
            !((todaysRecords history today).map (fun t => t.title)).contains
              p.1)).map Prod.fst := by
    apply List.map_congr_left
    intro p hp
    have hpm := (List.mem_filter.mp hp).1
    have hk := ((buildRitualMap_spec (recurringRecords history)).2.1 p hpm).1
    simp [Function.comp, virtualFor]
    exact hk.symm
  rw [hcongr]
  exact List.Nodup.sublist
    ((List.filter_sublist _).map Prod.fst)
    (buildRitualMap_spec (recurringRecords history)).1

/-- A virtual record with a given title exists exactly when the history has
a recurring record with that title and no record of that title dated
today. -/
theorem materializeVirtuals_mem_iff (history : List Task) (today : Int)
    (title : String) :
    (∃ v ∈ materializeVirtuals history today, v.title = title) ↔
      ((∃ t ∈ history, t.isRecurring = true ∧ t.title = title) ∧
        ¬ ∃ t ∈ history, t.date = today ∧ t.title = title) := by
  have hrec : ∀ t : Task, t ∈ recurringRecords history ↔
      t ∈ history ∧ t.isRecurring = true := by
    intro t
    unfold recurringRecords
    exact List.mem_filter
  have htoday : ∀ t : Task, t ∈ todaysRecords history today ↔
      t ∈ history ∧ t.date = today := by
    intro t
    unfold todaysRecords
    rw [List.mem_filter]
    simp
  constructor
  · intro ⟨v, hv, hvt⟩
    unfold materializeVirtuals at hv
    obtain ⟨p, hp, hFp⟩ := List.mem_map.mp hv
    obtain ⟨hpm, hPp⟩ := List.mem_filter.mp hp
    obtain ⟨hk, hval⟩ := (buildRitualMap_spec (recurringRecords history)).2.1 p hpm
    have hvtitle : p.1 = title := by
      rw [← hFp] at hvt
      rw [hk]
      exact hvt
    constructor
    · refine ⟨p.2, ((hrec p.2).mp hval).1, ((hrec p.2).mp hval).2, ?_⟩
      rw [← hk]
      exact hvtitle
    · intro ⟨t, ht, htd, htt⟩
      have hmem : title ∈ (todaysRecords history today).map (fun t => t.title) :=
        List.mem_map.mpr ⟨t, (htoday t).mpr ⟨ht, htd⟩, htt⟩
      rw [hvtitle] at hPp
      have hnotin :
          ¬ title ∈ (todaysRecords history today).map (fun t => t.title) := by
        simpa using hPp
      exact hnotin hmem
  · intro ⟨⟨t, ht, htr, htt⟩, hnone⟩
    have hkey : ∃ p ∈ buildRitualMap (recurringRecords history), p.1 = title :=
      ((buildRitualMap_spec (recurringRecords history)).2.2 title).mpr
        ⟨t, (hrec t).mpr ⟨ht, htr⟩, htt⟩
    obtain ⟨p, hpm, hpk⟩ := hkey
    have hP : (!((todaysRecords history today).map
        (fun t => t.title)).contains p.1) = true := by
      simp only [hpk]
      simp only [Bool.not_eq_true']
      rw [← Bool.not_eq_true]
      intro hcont
      have : title ∈ (todaysRecords history today).map (fun t => t.title) := by
        simpa using hcont
      obtain ⟨t', ht', htt'⟩ := List.mem_map.mp this
      exact hnone ⟨t', ((htoday t').mp ht').1, ((htoday t').mp ht').2, htt'⟩
    refine ⟨virtualFor p.2 today, ?_, ?_⟩
    · unfold materializeVirtuals
      exact List.mem_map.mpr ⟨p, List.mem_filter.mpr ⟨hpm, hP⟩, rfl⟩
    · have hk := ((buildRitualMap_spec (recurringRecords history)).2.1 p hpm).1
      show p.2.title = title
      rw [← hk]
      exact hpk

/-- Every synthesized virtual record has `completed = false`, today's date,
and takes its title, reminder time and id stem from a recurring template of
the history, with id `virtual-<templateId>-<today>`. -/
theorem materializeVirtuals_fields (history : List Task) (today : Int) :
    ∀ v ∈ materializeVirtuals history today,
      v.completed = false ∧ v.date = today ∧
      ∃ tmpl ∈ history, tmpl.isRecurring = true ∧ tmpl.title = v.title ∧
        v.id = "virtual-" ++ tmpl.id ++ "-" ++ toString today ∧
        v.reminderTime = tmpl.reminderTime := by
  intro v hv
  unfold materializeVirtuals at hv
  obtain ⟨p, hp, hFp⟩ := List.mem_map.mp hv
  have hpm := (List.mem_filter.mp hp).1
  obtain ⟨hk, hval⟩ :=
    (buildRitualMap_spec (recurringRecords history)).2.1 p hpm
  have hmem : p.2 ∈ history ∧ p.2.isRecurring = true := by
    have := hval
    unfold recurringRecords at this
    exact List.mem_filter.mp this
  subst hFp
  exact ⟨rfl, rfl, p.2, hmem.1, hmem.2, rfl, rfl, rfl⟩

/-- Claim C7 (confirmed).  The Materializer is a pure function of the
history and today's date key, so two runs on the same inputs are
definitionally identical; the theorem characterizes the virtual-record set
it produces each time: the synthesized titles are pairwise distinct, a
virtual record with a given title exists exactly when the history has a
recurring record of that title and no concrete record of that title dated
today, and every virtual record is `completed = false`, dated today, with
title and reminder time of a recurring template and id
`virtual-<templateId>-<today>`. -/
theorem c7_materializer_virtual_set :
    (∀ (history : List Task) (today : Int),
        ((materializeVirtuals history today).map (fun v => v.title)).Nodup) ∧
    (∀ (history : List Task) (today : Int) (title : String),
        (∃ v ∈ materializeVirtuals history today, v.title = title) ↔
          ((∃ t ∈ history, t.isRecurring = true ∧ t.title = title) ∧
            ¬ ∃ t ∈ history, t.date = today ∧ t.title = title)) ∧
    (∀ (history : List Task) (today : Int) (v : Task),
        v ∈ materializeVirtuals history today →
          v.completed = false ∧ v.date = today ∧
          ∃ tmpl ∈ history, tmpl.isRecurring = true ∧ tmpl.title = v.title ∧
            v.id = "virtual-" ++ tmpl.id ++ "-" ++ toString today ∧
            v.reminderTime = tmpl.reminderTime) :=
  ⟨materializeVirtuals_titles_nodup,
   materializeVirtuals_mem_iff,
   fun history today v hv => materializeVirtuals_fields history today v hv⟩

/-- Claim C7, witness at scenario 3: a recurring "Meditate" template dated
day 1 and no record for today = day 2 yields exactly one virtual record
with that title. -/
theorem c7_materializer_virtual_set_witness :
    (((materializeVirtuals [meditateTemplate] 2).map
        (fun v => v.title)).Nodup) ∧
    ((∃ v ∈ materializeVirtuals [meditateTemplate] 2,
        v.title = "Meditate") ↔
      ((∃ t ∈ [meditateTemplate],
          t.isRecurring = true ∧ t.title = "Meditate") ∧
        ¬ ∃ t ∈ [meditateTemplate], t.date = 2 ∧ t.title = "Meditate")) ∧
    ((materializeVirtuals [meditateTemplate] 2).map (fun v => v.title)
      = ["Meditate"]) := by
  refine ⟨c7_materializer_virtual_set.1 [meditateTemplate] 2,
    c7_materializer_virtual_set.2.1 [meditateTemplate] 2 "Meditate",
    by decide⟩

end Streaker
